import Mathlib

/-!
Shallow embedding of the timetable pipeline of this repository: the function
`solve_timetable` of `timetable_ui.py`, whose validation, constraint model and
result extraction subsume the near-duplicate scripts `chronos.py` and
`timetable_solver.py`.  The CP-SAT solver is external to the repository; it is
modelled by an optional final `Assignment` (a valuation of every model
variable), and the CP-SAT contract — an accepted OPTIMAL/FEASIBLE assignment
satisfies every constraint posted on the model — appears as the
`constraintsHold` hypothesis in the theorems about accepted solutions.
-/

namespace Chronos

/-- One entry of the input `classes` list: `{"class": ..., "subjects": [...]}`.
A missing `subjects` key behaves exactly like the empty list. -/
structure ClassInfo where
  name : String
  subjects : List String
deriving DecidableEq

/-- One entry of the input `subjects` list: `{"Subject": ..., "Periods": ...}`. -/
structure SubjectDef where
  subject : String
  periods : Nat
deriving DecidableEq

/-- One entry of the input `teachers` list: `{"Teacher": ..., "Subject": ...}`. -/
structure TeacherDef where
  teacher : String
  subject : String
deriving DecidableEq

/-- The raw problem description consumed by `solve_timetable`; a missing
`classes` key behaves like the empty list (`data.get("classes", [])`). -/
structure Input where
  classes : List ClassInfo
  subjects : List SubjectDef
  teachers : List TeacherDef
deriving DecidableEq

/-- Python-dict insertion on an association list: overwrite the value in place
when the key is present, append at the end otherwise. -/
def dictInsert (d : List (String × β)) (k : String) (v : β) : List (String × β) :=
  if d.any (fun p => p.1 == k) then d.map (fun p => if p.1 == k then (p.1, v) else p)
  else d ++ [(k, v)]

/-- Build a Python dict from a pair list: keys in first-occurrence order, the
last value for a repeated key wins. -/
def pyDictOf (l : List (String × β)) : List (String × β) :=
  l.foldl (fun d p => dictInsert d p.1 p.2) []

/-- Dict lookup by key. -/
def dlookup (d : List (String × β)) (k : String) : Option β :=
  (d.find? fun p => p.1 == k).map Prod.snd

/-- Dict key list, in order. -/
def dkeys (d : List (String × β)) : List String := d.map Prod.fst

/-- The dict `subjects = {s["Subject"]: s["Periods"] for s in data.get("subjects", [])}`. -/
def subjectsDict (input : Input) : List (String × Nat) :=
  pyDictOf (input.subjects.map fun s => (s.subject, s.periods))

/-- Python `str.strip()` with no argument: drop leading and trailing
whitespace.  (`String.trim` has the same behaviour but its `Substring`
auxiliaries do not reduce in the kernel, so the character list is stripped
directly.) -/
def pyStrip (s : String) : String :=
  ⟨((s.data.dropWhile Char.isWhitespace).reverse.dropWhile Char.isWhitespace).reverse⟩

/-- The dict `teachers = {t["Subject"].strip(): t["Teacher"] for t in data.get("teachers", [])}`. -/
def teachersDict (input : Input) : List (String × String) :=
  pyDictOf (input.teachers.map fun t => (pyStrip t.subject, t.teacher))

/-- The list `missing_teachers = [subject for subject in subjects if subject not in teachers]`. -/
def missingTeachers (input : Input) : List String :=
  (dkeys (subjectsDict input)).filter fun subj =>
    !((teachersDict input).any fun p => p.1 == subj)

/-- Append `v` to the bucket of key `k`, creating the bucket when absent
(`defaultdict(list)` behaviour). -/
def dAppendTo (d : List (String × List String)) (k v : String) :
    List (String × List String) :=
  if d.any (fun p => p.1 == k) then
    d.map (fun p => if p.1 == k then (p.1, p.2 ++ [v]) else p)
  else d ++ [(k, [v])]

/-- The grouping `teacher_subjects = defaultdict(list); for subject, teacher in
teachers.items(): teacher_subjects[teacher].append(subject)`. -/
def teacherSubjects (input : Input) : List (String × List String) :=
  (teachersDict input).foldl (fun d p => dAppendTo d p.2 p.1) []

/-- The first `(class name, subject)` pair, in class order then the class's
subject order, whose subject is absent from the subjects dict.  In the source
this check sits inside the decision-variable creation loops and triggers the
`"... is not defined in subjects list."` early return. -/
def firstUnknownIn (d : List (String × Nat)) : List ClassInfo → Option (String × String)
  | [] => none
  | c :: rest =>
    match c.subjects.find? (fun subj => !(d.any fun p => p.1 == subj)) with
    | some subj => some (c.name, subj)
    | none => firstUnknownIn d rest

/-- The early-return prefix of `solve_timetable`: the first failure message, or
`none` when every check passes.  The checks appear in source order: missing
teachers, empty class list, a class with no subjects, a subject needing more
periods than `SLOTS = 5 * periods_per_day`, and finally a class subject that is
not in the subjects dict (in the source this last check fires during
decision-variable creation, after the model object exists, but still before
any solve). -/
def validate (input : Input) (ppd : Nat) : Option String :=
  if missingTeachers input ≠ [] then
    some ("No teachers assigned for subjects: " ++
      String.intercalate ", " (missingTeachers input))
  else if input.classes = [] then
    some "No classes defined in the input data."
  else
    match input.classes.find? (fun c => c.subjects.isEmpty) with
    | some c => some ("Class " ++ c.name ++ " has no subjects assigned.")
    | none =>
      match (subjectsDict input).find? (fun p => decide (5 * ppd < p.2)) with
      | some p => some ("Subject '" ++ p.1 ++ "' requires " ++ toString p.2 ++
          " periods, but only " ++ toString (5 * ppd) ++ " slots are available.")
      | none =>
        match firstUnknownIn (subjectsDict input) input.classes with
        | some cs => some ("Subject '" ++ cs.2 ++ "' in class '" ++ cs.1 ++
            "' is not defined in subjects list.")
        | none => none

/-- A total valuation of the model's variables: the decision variables
`schedule[class][subject][slot]`, the consecutive-repeat penalty variables
(indexed by class, subject and the left slot of the pair) and the
same-period-across-days penalty variables (indexed by class, subject and
period of day). -/
structure Assignment where
  dec : String → String → Nat → Bool
  consecPen : String → String → Nat → Bool
  repeatPen : String → String → Nat → Bool

/-- Hard constraint C1 as posted: `sum(schedule[class][subject]) ==
subjects[subject]` for each class and each subject it lists. -/
def periodCountOK (input : Input) (ppd : Nat) (a : Assignment) : Bool :=
  input.classes.all fun c => c.subjects.all fun subj =>
    ((List.range (5 * ppd)).countP fun s => a.dec c.name subj s)
      == (dlookup (subjectsDict input) subj).getD 0

/-- Hard constraint C2 as posted: `AddAtMostOne(schedule[class][subject][s] for
subject in c["subjects"])` for each class and slot — at most one true literal
among the listed subjects (counted with list multiplicity, as the generator
yields them). -/
def classExclusiveOK (input : Input) (ppd : Nat) (a : Assignment) : Bool :=
  input.classes.all fun c => (List.range (5 * ppd)).all fun s =>
    decide ((c.subjects.countP fun subj => a.dec c.name subj s) ≤ 1)

/-- The teacher-conflict constraints exactly as the source builds them.  The
comprehension `schedule[c["class"]][subject][s] for c in classes if subject in
c["subjects"] and subject in subs` reads the loop variable `subject` left over
from the preceding `for subject, teacher in teachers.items()` loop — i.e. the
last key of the teachers dict — instead of ranging over `subs`.  When the
teachers dict is empty no constraint is posted at all (and `teacherSubjects`
is empty too, so the match default is vacuous either way). -/
def teacherConstraintOK (input : Input) (ppd : Nat) (a : Assignment) : Bool :=
  match (dkeys (teachersDict input)).getLast? with
  | none => true
  | some subj =>
    (teacherSubjects input).all fun ts =>
      (List.range (5 * ppd)).all fun s =>
        decide ((input.classes.countP fun c =>
          c.subjects.contains subj && ts.2.contains subj && a.dec c.name subj s) ≤ 1)

/-- The consecutive-repeat penalty constraints as posted:
`AddBoolAnd([x_s, x_{s+1}]).OnlyEnforceIf(penalty)` — the implication
penalty → both decision variables true, and nothing in the other direction. -/
def consecPenaltyOK (input : Input) (ppd : Nat) (a : Assignment) : Bool :=
  input.classes.all fun c => (List.range (5 * ppd - 1)).all fun s =>
    c.subjects.all fun subj =>
      !(a.consecPen c.name subj s) || (a.dec c.name subj s && a.dec c.name subj (s + 1))

/-- The same-period-across-days penalty constraints as posted:
`Add(sum over daily_slots > 1).OnlyEnforceIf(repeat_penalty)` — again only the
implication from the penalty variable to the counted condition. -/
def repeatPenaltyOK (input : Input) (ppd : Nat) (a : Assignment) : Bool :=
  input.classes.all fun c => (List.range ppd).all fun p =>
    c.subjects.all fun subj =>
      !(a.repeatPen c.name subj p) ||
        decide (1 < ((List.range 5).countP fun day => a.dec c.name subj (day * ppd + p)))

/-- All constraints posted on the CP-SAT model by `solve_timetable`.  By the
CP-SAT contract, any assignment the solver accepts (OPTIMAL or FEASIBLE)
satisfies this predicate. -/
def constraintsHold (input : Input) (ppd : Nat) (a : Assignment) : Bool :=
  periodCountOK input ppd a && classExclusiveOK input ppd a &&
  teacherConstraintOK input ppd a && consecPenaltyOK input ppd a &&
  repeatPenaltyOK input ppd a

/-- Number of true consecutive-repeat penalty variables, over the same index
ranges the source enumerates when it collects `consecutive_penalties`. -/
def consecPenCount (input : Input) (ppd : Nat) (a : Assignment) : Nat :=
  (input.classes.map fun c =>
    ((List.range (5 * ppd - 1)).map fun s =>
      c.subjects.countP fun subj => a.consecPen c.name subj s).sum).sum

/-- Number of true same-period-repeat penalty variables (`other_penalties`). -/
def repeatPenCount (input : Input) (ppd : Nat) (a : Assignment) : Nat :=
  (input.classes.map fun c =>
    ((List.range ppd).map fun p =>
      c.subjects.countP fun subj => a.repeatPen c.name subj p).sum).sum

/-- The minimized objective `3 * sum(consecutive_penalties) +
sum(other_penalties)`, evaluated on an assignment; `solver.ObjectiveValue()`
returns this number for the final assignment. -/
def objectiveVal (input : Input) (ppd : Nat) (a : Assignment) : Nat :=
  3 * consecPenCount input ppd a + repeatPenCount input ppd a

/-- The per-class row of the output timetable: for slot `s`, the subjects (in
the class's listing order) whose decision variable is true there — the result
of the appends `timetable[class_name][str(s)].append(subject)`. -/
def classRow (ppd : Nat) (a : Assignment) (c : ClassInfo) : List (List String) :=
  (List.range (5 * ppd)).map fun s => c.subjects.filter fun subj => a.dec c.name subj s

/-- The observational recount of consecutive repeats for one class row: slot
pairs `(s, s+1)` where both entries are non-empty and their first subjects
coincide. -/
def rowConsecutives (ppd : Nat) (row : List (List String)) : Nat :=
  (List.range (5 * ppd - 1)).countP fun s =>
    match row.getD s [], row.getD (s + 1) [] with
    | x :: _, y :: _ => x == y
    | _, _ => false

/-- JSON-like values appearing in the result object of `solve_timetable`.  The
timetable is a dict from class name to a dict with keys `str(0) ..
str(SLOTS-1)` in order, embedded as a slot-indexed list. -/
inductive JVal where
  | str (v : String)
  | num (v : Nat)
  | table (v : List (String × List (List String)))
  | nmap (v : List (String × Nat))
  | slist (v : List String)
deriving DecidableEq

/-- The function `solve_timetable(data, periods_per_day)`, as a function of the input, the
external solver outcome (`some a`: OPTIMAL/FEASIBLE with final assignment `a`;
`none`: no accepted solution) and `periods_per_day`.  The result object is the
key/value list the source returns. -/
def solve_timetable (input : Input) (oracle : Option Assignment) (ppd : Nat) :
    List (String × JVal) :=
  match validate input ppd with
  | some msg => [("status", JVal.str "fail"), ("message", JVal.str msg)]
  | none =>
    match oracle with
    | none => [("status", JVal.str "fail"),
        ("message", JVal.str "No feasible solution. Try adjusting the constraints.")]
    | some a =>
      [("status", JVal.str "success"),
       ("timetable", JVal.table (pyDictOf (input.classes.map fun c =>
          (c.name, classRow ppd a c)))),
       ("free_periods", JVal.nmap (pyDictOf (input.classes.map fun c =>
          (c.name, (classRow ppd a c).countP List.isEmpty)))),
       ("consecutive_repeats", JVal.num
          ((input.classes.map fun c => rowConsecutives ppd (classRow ppd a c)).sum)),
       ("solver_score", JVal.num (objectiveVal input ppd a)),
       ("periods_per_day", JVal.num ppd),
       ("classes", JVal.slist (input.classes.map ClassInfo.name))]

/-- The teacher-exclusivity invariant as the spec states it (hard constraint
C3): for every teacher and slot, at most one decision variable is true over
all classes and all subjects owned by that teacher.  Stated from the spec's
words, to be compared with `teacherConstraintOK`, the constraints the source
actually posts. -/
def teacherExclusive (input : Input) (ppd : Nat) (a : Assignment) : Bool :=
  (teacherSubjects input).all fun ts =>
    (List.range (5 * ppd)).all fun s =>
      decide (((input.classes.map fun c =>
        c.subjects.countP fun subj => ts.2.contains subj && a.dec c.name subj s).sum) ≤ 1)

/-! Concrete instances used to falsify claims and to discharge hypotheses of
the general theorems on explicit inputs. -/

/-- Two classes, one teacher owning both subjects (`periods_per_day = 1`, so
`SLOTS = 5`). -/
def inputT : Input :=
  { classes := [⟨"X", ["Math"]⟩, ⟨"Y", ["Eng"]⟩],
    subjects := [⟨"Math", 1⟩, ⟨"Eng", 1⟩],
    teachers := [⟨"T", "Math"⟩, ⟨"T", "Eng"⟩] }

/-- An assignment putting class X's Math and class Y's Eng both in slot 0,
with every penalty variable false. -/
def asgT : Assignment :=
  { dec := fun cn subj s =>
      (cn == "X" && subj == "Math" && s == 0) || (cn == "Y" && subj == "Eng" && s == 0),
    consecPen := fun _ _ _ => false,
    repeatPen := fun _ _ _ => false }

/-- One class, one subject needing 2 of the 5 slots. -/
def inputP : Input :=
  { classes := [⟨"C", ["M"]⟩],
    subjects := [⟨"M", 2⟩],
    teachers := [⟨"T", "M"⟩] }

/-- M scheduled in the adjacent slots 0 and 1, every penalty variable false. -/
def asgP : Assignment :=
  { dec := fun cn subj s => cn == "C" && subj == "M" && (s == 0 || s == 1),
    consecPen := fun _ _ _ => false,
    repeatPen := fun _ _ _ => false }

/-- One class, one subject needing 2 of the 5 slots (recount disagreement). -/
def inputQ : Input :=
  { classes := [⟨"D", ["N"]⟩],
    subjects := [⟨"N", 2⟩],
    teachers := [⟨"U", "N"⟩] }

/-- N scheduled in the adjacent slots 0 and 1, every penalty variable false. -/
def asgQ : Assignment :=
  { dec := fun cn subj s => cn == "D" && subj == "N" && (s == 0 || s == 1),
    consecPen := fun _ _ _ => false,
    repeatPen := fun _ _ _ => false }

/-- Claim C1: the spec's teacher-exclusivity invariant is claimed to hold in
every accepted solution, i.e. the posted constraints are claimed to forbid a
teacher teaching two classes in one slot.  On `inputT` the assignment `asgT`
passes validation and satisfies every posted constraint, yet teacher T teaches
class X (Math) and class Y (Eng) simultaneously in slot 0: the comprehension
uses the leaked loop variable `subject` instead of iterating the teacher's
subjects, so the intended constraint is never posted. -/
theorem c1_code_bug :
    validate inputT 1 = none ∧
    constraintsHold inputT 1 asgT = true ∧
    teacherExclusive inputT 1 asgT = false := by
  refine ⟨by decide, by decide, by decide⟩

/-- Claim C2: the S1 penalty variable is claimed to equal the conjunction of
the two adjacent decision variables in every acceptable assignment.  On
`inputP` the assignment `asgP` passes validation and satisfies every posted
constraint while both decision variables of the pair (slot 0, slot 1) are true
and the penalty variable is false: the source posts only
`AddBoolAnd(...).OnlyEnforceIf(penalty)`, the implication from the penalty to
the conjunction, never the converse. -/
theorem c2_code_bug :
    validate inputP 1 = none ∧
    constraintsHold inputP 1 asgP = true ∧
    asgP.dec "C" "M" 0 = true ∧ asgP.dec "C" "M" 1 = true ∧
    asgP.consecPen "C" "M" 0 = false := by
  refine ⟨by decide, by decide, by decide, by decide, by decide⟩

/-- Claim C3: the recount of consecutive repeats in the success result is
claimed to always equal the number of true S1 penalty variables.  On `inputQ`
the assignment `asgQ` passes validation, satisfies every posted constraint and
satisfies class exclusivity, yet the extractor recounts 1 consecutive repeat
while no S1 penalty variable is true — the one-directional penalty encoding
lets the solver accept (indeed prefer) all-false penalties. -/
theorem c3_code_bug :
    validate inputQ 1 = none ∧
    constraintsHold inputQ 1 asgQ = true ∧
    dlookup (solve_timetable inputQ (some asgQ) 1) "consecutive_repeats"
      = some (JVal.num 1) ∧
    consecPenCount inputQ 1 asgQ = 0 := by
  refine ⟨by decide, by decide, by decide, by decide⟩

/-! Validation-rule predicates on the raw input, matching the conditions the
source tests. -/

/-- The input defines a subject with no assigned teacher (`MissingTeacher`). -/
@[reducible] def hasMissingTeacher (input : Input) : Prop := missingTeachers input ≠ []

/-- Some class has an empty subject set (`EmptyClass`). -/
@[reducible] def hasEmptyClass (input : Input) : Prop := ∃ c ∈ input.classes, c.subjects = []

/-- Some subject requires more periods than there are slots (`OverCapacity`). -/
@[reducible] def hasOverCapacity (input : Input) (ppd : Nat) : Prop :=
  ∃ p ∈ subjectsDict input, 5 * ppd < p.2

/-- Some class references a subject absent from the subject list
(`UnknownSubject`). -/
@[reducible] def hasUnknownSubject (input : Input) : Prop :=
  ∃ c ∈ input.classes, ∃ subj ∈ c.subjects, dlookup (subjectsDict input) subj = none

/-- A fail result always carries its message under the `message` key. -/
lemma solve_of_validate_some {input : Input} {ppd : Nat} (oracle : Option Assignment)
    {msg : String} (h : validate input ppd = some msg) :
    solve_timetable input oracle ppd
      = [("status", JVal.str "fail"), ("message", JVal.str msg)] := by
  unfold solve_timetable
  rw [h]

/-- An input violating both `UnknownSubject` (class A lists the undefined
subject Ghost) and `MissingTeacher` (defined subject Math has no teacher). -/
def inputC4 : Input :=
  { classes := [⟨"A", ["Ghost"]⟩],
    subjects := [⟨"Math", 1⟩],
    teachers := [] }

/-- Claim C4 counterexample: the checks are claimed to run in the order
UnknownSubject, MissingTeacher, EmptyClass, OverCapacity, so on an input
violating both of the first two the UnknownSubject message would be reported.
On `inputC4`, which violates both, the source reports the MissingTeacher
message instead: its missing-teacher check runs first and the unknown-subject
check runs last, inside variable creation. -/
theorem c4_counterexample :
    hasUnknownSubject inputC4 ∧ hasMissingTeacher inputC4 ∧
    dlookup (solve_timetable inputC4 none 1) "message"
      = some (JVal.str "No teachers assigned for subjects: Math") ∧
    dlookup (solve_timetable inputC4 none 1) "message"
      ≠ some (JVal.str "Subject 'Ghost' in class 'A' is not defined in subjects list.") := by
  refine ⟨by decide, by decide, by decide, by decide⟩

/-- Claim C4 as amended: the checks run in the order MissingTeacher, empty
class list, EmptyClass, OverCapacity, UnknownSubject; the first matching rule
in this order determines the reported message (the first four short-circuit
before the model is built, while UnknownSubject fires during decision-variable
creation but still before any solving). -/
theorem c4_amended (input : Input) (ppd : Nat) (oracle : Option Assignment) :
    (missingTeachers input ≠ [] →
      dlookup (solve_timetable input oracle ppd) "message"
        = some (JVal.str ("No teachers assigned for subjects: " ++
            String.intercalate ", " (missingTeachers input)))) ∧
    (missingTeachers input = [] → input.classes = [] →
      dlookup (solve_timetable input oracle ppd) "message"
        = some (JVal.str "No classes defined in the input data.")) ∧
    (∀ c, missingTeachers input = [] → input.classes ≠ [] →
      input.classes.find? (fun x => x.subjects.isEmpty) = some c →
      dlookup (solve_timetable input oracle ppd) "message"
        = some (JVal.str ("Class " ++ c.name ++ " has no subjects assigned."))) ∧
    (∀ p, missingTeachers input = [] → input.classes ≠ [] →
      input.classes.find? (fun x => x.subjects.isEmpty) = none →
      (subjectsDict input).find? (fun q => decide (5 * ppd < q.2)) = some p →
      dlookup (solve_timetable input oracle ppd) "message"
        = some (JVal.str ("Subject '" ++ p.1 ++ "' requires " ++ toString p.2 ++
            " periods, but only " ++ toString (5 * ppd) ++ " slots are available."))) ∧
    (∀ cs, missingTeachers input = [] → input.classes ≠ [] →
      input.classes.find? (fun x => x.subjects.isEmpty) = none →
      (subjectsDict input).find? (fun q => decide (5 * ppd < q.2)) = none →
      firstUnknownIn (subjectsDict input) input.classes = some cs →
      dlookup (solve_timetable input oracle ppd) "message"
        = some (JVal.str ("Subject '" ++ cs.2 ++ "' in class '" ++ cs.1 ++
            "' is not defined in subjects list."))) := by
  refine ⟨?_, ?_, ?_, ?_, ?_⟩
  · intro h1
    have hv : validate input ppd
        = some ("No teachers assigned for subjects: " ++
            String.intercalate ", " (missingTeachers input)) := by
      unfold validate
      rw [if_pos h1]
    rw [solve_of_validate_some oracle hv]
    rfl
  · intro h1 h2
    have hv : validate input ppd = some "No classes defined in the input data." := by
      unfold validate
      rw [if_neg (fun hn => hn h1), if_pos h2]
    rw [solve_of_validate_some oracle hv]
    rfl
  · intro c h1 h2 h3
    have hv : validate input ppd
        = some ("Class " ++ c.name ++ " has no subjects assigned.") := by
      unfold validate
      rw [if_neg (fun hn => hn h1), if_neg h2, h3]
    rw [solve_of_validate_some oracle hv]
    rfl
  · intro p h1 h2 h3 h4
    have hv : validate input ppd
        = some ("Subject '" ++ p.1 ++ "' requires " ++ toString p.2 ++
            " periods, but only " ++ toString (5 * ppd) ++ " slots are available.") := by
      unfold validate
      rw [if_neg (fun hn => hn h1), if_neg h2, h3, h4]
    rw [solve_of_validate_some oracle hv]
    rfl
  · intro cs h1 h2 h3 h4 h5
    have hv : validate input ppd
        = some ("Subject '" ++ cs.2 ++ "' in class '" ++ cs.1 ++
            "' is not defined in subjects list.") := by
      unfold validate
      rw [if_neg (fun hn => hn h1), if_neg h2, h3, h4, h5]
    rw [solve_of_validate_some oracle hv]
    rfl

/-- A defined subject X with no teachers at all. -/
def inputMT : Input :=
  { classes := [⟨"A", ["X"]⟩], subjects := [⟨"X", 1⟩], teachers := [] }

/-- Witness for `c4_amended` at the concrete input `inputMT`. -/
theorem c4_witness :
    dlookup (solve_timetable inputMT none 1) "message"
      = some (JVal.str "No teachers assigned for subjects: X") := by
  have h := (c4_amended inputMT 1 none).1 (by decide)
  exact h.trans (by decide)

/-- Empty class list, but also a defined subject X without a teacher. -/
def inputC10 : Input :=
  { classes := [], subjects := [⟨"X", 1⟩], teachers := [] }

/-- Claim C10 counterexample: an input with an empty `classes` list is claimed
to always produce the message `No classes defined in the input data.`; on
`inputC10` (empty class list, but subject X lacking a teacher) the source
reports the missing-teacher message instead, because that check runs first. -/
theorem c10_counterexample :
    inputC10.classes = [] ∧
    dlookup (solve_timetable inputC10 none 1) "message"
      = some (JVal.str "No teachers assigned for subjects: X") ∧
    dlookup (solve_timetable inputC10 none 1) "message"
      ≠ some (JVal.str "No classes defined in the input data.") := by
  refine ⟨by decide, by decide, by decide⟩

/-- Claim C10 as amended: for every input whose class list is empty and in
which every defined subject has an assigned teacher, `solve_timetable` fails
with the message `No classes defined in the input data.`, before any model
construction or solving (the result is the same for every solver outcome). -/
theorem c10_empty_classes (input : Input) (ppd : Nat) (oracle : Option Assignment)
    (hmt : missingTeachers input = []) (hcl : input.classes = []) :
    solve_timetable input oracle ppd
      = [("status", JVal.str "fail"),
         ("message", JVal.str "No classes defined in the input data.")] := by
  have hv : validate input ppd = some "No classes defined in the input data." := by
    unfold validate
    rw [if_neg (fun hn => hn hmt), if_pos hcl]
  exact solve_of_validate_some oracle hv

/-- Witness for `c10_empty_classes` on the fully empty input. -/
theorem c10_witness :
    solve_timetable ⟨[], [], []⟩ none 1
      = [("status", JVal.str "fail"),
         ("message", JVal.str "No classes defined in the input data.")] :=
  c10_empty_classes ⟨[], [], []⟩ 1 none rfl rfl

/-- A minimal valid input: one class with one subject needing one slot. -/
def inputV : Input :=
  { classes := [⟨"B", ["S"]⟩], subjects := [⟨"S", 1⟩], teachers := [⟨"W", "S"⟩] }

/-- A valid assignment for `inputV`: S in slot 0, all penalties false. -/
def asgV : Assignment :=
  { dec := fun cn subj s => cn == "B" && subj == "S" && s == 0,
    consecPen := fun _ _ _ => false,
    repeatPen := fun _ _ _ => false }

/-- Claim C5 counterexample: every success result is claimed to carry a
numeric `objective_value` field; the concrete success result on `inputV` has
no such key — the source stores the objective under `solver_score`. -/
theorem c5_counterexample :
    dlookup (solve_timetable inputV (some asgV) 1) "status" = some (JVal.str "success") ∧
    dlookup (solve_timetable inputV (some asgV) 1) "objective_value" = none := by
  refine ⟨by decide, by decide⟩

/-- Claim C5 as amended: every success result is an object with exactly the
keys status, timetable, free_periods, consecutive_repeats, solver_score,
periods_per_day and classes, where solver_score is the weighted penalty sum of
the returned assignment; a message key is present iff the status is fail. -/
theorem c5_amended (input : Input) (ppd : Nat) :
    (∀ a, validate input ppd = none →
      dkeys (solve_timetable input (some a) ppd)
        = ["status", "timetable", "free_periods", "consecutive_repeats",
           "solver_score", "periods_per_day", "classes"] ∧
      dlookup (solve_timetable input (some a) ppd) "solver_score"
        = some (JVal.num (objectiveVal input ppd a)) ∧
      dlookup (solve_timetable input (some a) ppd) "message" = none) ∧
    (∀ oracle, (dlookup (solve_timetable input oracle ppd) "message").isSome = true
        ↔ dlookup (solve_timetable input oracle ppd) "status" = some (JVal.str "fail")) := by
  constructor
  · intro a hv
    unfold solve_timetable
    rw [hv]
    exact ⟨rfl, rfl, rfl⟩
  · intro oracle
    unfold solve_timetable
    cases hv : validate input ppd with
    | some msg =>
      apply iff_of_true
      · rfl
      · rfl
    | none =>
      cases oracle with
      | none =>
        apply iff_of_true
        · rfl
        · rfl
      | some a =>
        apply iff_of_false
        · intro hcon
          exact Bool.false_ne_true hcon
        · intro hcon
          have := JVal.str.inj (Option.some.inj hcon)
          exact absurd this (by decide)

/-- Witness for `c5_amended`: the key list of the concrete success result on
`inputV`. -/
theorem c5_witness :
    dkeys (solve_timetable inputV (some asgV) 1)
      = ["status", "timetable", "free_periods", "consecutive_repeats",
         "solver_score", "periods_per_day", "classes"] :=
  ((c5_amended inputV 1).1 asgV (by decide)).1

/-- A successful key membership test yields a successful lookup. -/
lemma dlookup_isSome_of_any {d : List (String × β)} {k : String}
    (h : (d.any fun p => p.1 == k) = true) : (dlookup d k).isSome = true := by
  unfold dlookup
  rcases List.any_eq_true.mp h with ⟨p, hp, hpk⟩
  have hsome : (d.find? fun q => q.1 == k).isSome = true :=
    List.find?_isSome.mpr ⟨p, hp, hpk⟩
  cases hfind : d.find? fun q => q.1 == k with
  | none => rw [hfind] at hsome; cases hsome
  | some q => rfl

/-- When the unknown-subject scan comes up empty, every subject of every class
is present in the subjects dict. -/
lemma firstUnknownIn_none_spec {d : List (String × Nat)} :
    ∀ {cs : List ClassInfo}, firstUnknownIn d cs = none →
      ∀ c ∈ cs, ∀ subj ∈ c.subjects, (dlookup d subj).isSome = true := by
  intro cs
  induction cs with
  | nil =>
    intro _ c hc
    exact absurd hc (List.not_mem_nil c)
  | cons c0 rest ih =>
    intro h c hc subj hs
    rw [firstUnknownIn] at h
    cases hfind : c0.subjects.find? (fun subj => !(d.any fun p => p.1 == subj)) with
    | some s0 => rw [hfind] at h; cases h
    | none =>
      rw [hfind] at h
      rcases List.mem_cons.mp hc with hc0 | hcr
      · subst hc0
        have hne := List.find?_eq_none.mp hfind subj hs
        apply dlookup_isSome_of_any
        cases hany : d.any fun p => p.1 == subj with
        | true => rfl
        | false => exact absurd (by rw [hany]; rfl) hne
      · exact ih h c hcr subj hs

/-- What passing every validation check of `solve_timetable` means. -/
lemma validate_none_spec {input : Input} {ppd : Nat} (h : validate input ppd = none) :
    missingTeachers input = [] ∧ input.classes ≠ [] ∧
    (∀ c ∈ input.classes, c.subjects ≠ []) ∧
    (∀ p ∈ subjectsDict input, p.2 ≤ 5 * ppd) ∧
    (∀ c ∈ input.classes, ∀ subj ∈ c.subjects,
      (dlookup (subjectsDict input) subj).isSome = true) := by
  unfold validate at h
  by_cases h1 : missingTeachers input ≠ []
  · rw [if_pos h1] at h; cases h
  rw [if_neg h1] at h
  by_cases h2 : input.classes = []
  · rw [if_pos h2] at h; cases h
  rw [if_neg h2] at h
  cases h3 : input.classes.find? (fun c => c.subjects.isEmpty) with
  | some c => rw [h3] at h; cases h
  | none =>
  rw [h3] at h
  cases h4 : (subjectsDict input).find? (fun p => decide (5 * ppd < p.2)) with
  | some p => rw [h4] at h; cases h
  | none =>
  rw [h4] at h
  cases h5 : firstUnknownIn (subjectsDict input) input.classes with
  | some cs => rw [h5] at h; cases h
  | none =>
  refine ⟨not_not.mp h1, h2, ?_, ?_, firstUnknownIn_none_spec h5⟩
  · intro c hc
    have := List.find?_eq_none.mp h3 c hc
    simpa [List.isEmpty_iff] using this
  · intro p hp
    have := List.find?_eq_none.mp h4 p hp
    simpa using this

/-- A subject with `Periods = 41` while `SLOTS = 40` (`periods_per_day = 8`). -/
def inputOverCap : Input :=
  { classes := [⟨"A", ["Math"]⟩],
    subjects := [⟨"Math", 41⟩],
    teachers := [⟨"T", "Math"⟩] }

/-- Claim C6: any input referencing an undefined subject, containing a defined
subject without a teacher, a class with an empty subject set, or a subject
whose period count exceeds SLOTS fails validation and yields the fail object
for every solver outcome — it is never passed to the solver; in particular
`Periods = 41` with `SLOTS = 40` is rejected with the OverCapacity message. -/
theorem c6_validation_completeness :
    (∀ (input : Input) (ppd : Nat) (oracle : Option Assignment),
      hasUnknownSubject input ∨ hasMissingTeacher input ∨ hasEmptyClass input ∨
        hasOverCapacity input ppd →
      ∃ msg, validate input ppd = some msg ∧
        solve_timetable input oracle ppd
          = [("status", JVal.str "fail"), ("message", JVal.str msg)]) ∧
    dlookup (solve_timetable inputOverCap none 8) "message"
      = some (JVal.str
          "Subject 'Math' requires 41 periods, but only 40 slots are available.") := by
  constructor
  · intro input ppd oracle hviol
    cases hv : validate input ppd with
    | none =>
      exfalso
      obtain ⟨hmt, _, hec, hoc, hus⟩ := validate_none_spec hv
      rcases hviol with hU | hM | hE | hO
      · obtain ⟨c, hc, subj, hs, hnone⟩ := hU
        have := hus c hc subj hs
        rw [hnone] at this
        cases this
      · exact hM hmt
      · obtain ⟨c, hc, hce⟩ := hE
        exact hec c hc hce
      · obtain ⟨p, hp, hgt⟩ := hO
        exact absurd hgt (Nat.not_lt.mpr (hoc p hp))
    | some msg =>
      exact ⟨msg, rfl, solve_of_validate_some oracle hv⟩
  · decide

/-- Class A lists the subject Ghost, which is not in the (empty) subject list. -/
def inputU : Input :=
  { classes := [⟨"A", ["Ghost"]⟩], subjects := [], teachers := [] }

/-- Witness for `c6_validation_completeness` at `inputU` (UnknownSubject). -/
theorem c6_witness :
    solve_timetable inputU none 1
      = [("status", JVal.str "fail"),
         ("message",
          JVal.str "Subject 'Ghost' in class 'A' is not defined in subjects list.")] := by
  obtain ⟨msg, hv, hsolve⟩ :=
    c6_validation_completeness.1 inputU 1 none (Or.inl (by decide))
  have hmsg : msg = "Subject 'Ghost' in class 'A' is not defined in subjects list." := by
    have h2 : validate inputU 1
        = some "Subject 'Ghost' in class 'A' is not defined in subjects list." := by decide
    exact Option.some.inj (hv.symm.trans h2)
  rw [hsolve, hmsg]

/-- Unpacking the posted period-count constraints from `constraintsHold`. -/
lemma periodCount_spec {input : Input} {ppd : Nat} {a : Assignment}
    (h : constraintsHold input ppd a = true) :
    ∀ c ∈ input.classes, ∀ subj ∈ c.subjects,
      ((List.range (5 * ppd)).countP fun s => a.dec c.name subj s)
        = (dlookup (subjectsDict input) subj).getD 0 := by
  intro c hc subj hs
  have hpc : periodCountOK input ppd a = true := by
    unfold constraintsHold at h
    simp only [Bool.and_eq_true] at h
    exact h.1.1.1.1
  unfold periodCountOK at hpc
  simp only [List.all_eq_true] at hpc
  exact eq_of_beq (hpc c hc subj hs)

/-- Unpacking the posted class-exclusivity constraints from `constraintsHold`. -/
lemma classExcl_spec {input : Input} {ppd : Nat} {a : Assignment}
    (h : constraintsHold input ppd a = true) :
    ∀ c ∈ input.classes, ∀ s ∈ List.range (5 * ppd),
      (c.subjects.countP fun subj => a.dec c.name subj s) ≤ 1 := by
  intro c hc s hs
  have hcx : classExclusiveOK input ppd a = true := by
    unfold constraintsHold at h
    simp only [Bool.and_eq_true] at h
    exact h.1.1.1.2
  unfold classExclusiveOK at hcx
  simp only [List.all_eq_true, decide_eq_true_eq] at hcx
  exact hcx c hc s hs

/-- Claim C7: in every accepted solution — every assignment satisfying the
posted constraints, on an input that passed validation — each class studies
each of its subjects in exactly the declared number of slots. -/
theorem c7_period_count (input : Input) (ppd : Nat) (a : Assignment)
    (hv : validate input ppd = none)
    (h : constraintsHold input ppd a = true) :
    ∀ c ∈ input.classes, ∀ subj ∈ c.subjects,
      dlookup (subjectsDict input) subj
        = some ((List.range (5 * ppd)).countP fun s => a.dec c.name subj s) := by
  intro c hc subj hs
  have heq := periodCount_spec h c hc subj hs
  have hsome := (validate_none_spec hv).2.2.2.2 c hc subj hs
  cases hls : dlookup (subjectsDict input) subj with
  | none => rw [hls] at hsome; cases hsome
  | some v =>
    rw [hls] at heq
    simp only [Option.getD_some] at heq
    rw [heq]

/-- One class, one subject M filling one of the five slots. -/
def inputW : Input :=
  { classes := [⟨"C", ["M"]⟩], subjects := [⟨"M", 1⟩], teachers := [⟨"T", "M"⟩] }

/-- M placed in slot 0, all penalty variables false. -/
def asgW : Assignment :=
  { dec := fun cn subj s => cn == "C" && subj == "M" && s == 0,
    consecPen := fun _ _ _ => false,
    repeatPen := fun _ _ _ => false }

/-- Witness for `c7_period_count` on `inputW`. -/
theorem c7_witness :
    dlookup (subjectsDict inputW) "M"
      = some ((List.range (5 * 1)).countP fun s => asgW.dec "C" "M" s) :=
  c7_period_count inputW 1 asgW (by decide) (by decide)
    ⟨"C", ["M"]⟩ (by decide) "M" (by decide)

/-- Claim C8: in every accepted solution each class studies at most one
subject per slot, so every slot entry of its output timetable row has length
at most one. -/
theorem c8_class_exclusive (input : Input) (ppd : Nat) (a : Assignment)
    (_hv : validate input ppd = none)
    (h : constraintsHold input ppd a = true) :
    ∀ c ∈ input.classes,
      (∀ s < 5 * ppd, (c.subjects.countP fun subj => a.dec c.name subj s) ≤ 1) ∧
      ∀ row ∈ classRow ppd a c, row.length ≤ 1 := by
  intro c hc
  have hcnt : ∀ s < 5 * ppd,
      (c.subjects.countP fun subj => a.dec c.name subj s) ≤ 1 := by
    intro s hs
    exact classExcl_spec h c hc s (List.mem_range.mpr hs)
  refine ⟨hcnt, ?_⟩
  intro row hrow
  unfold classRow at hrow
  rcases List.mem_map.mp hrow with ⟨s, hsr, hrw⟩
  rw [← hrw, ← List.countP_eq_length_filter]
  exact hcnt s (List.mem_range.mp hsr)

/-- Witness for `c8_class_exclusive` on `inputW` at slot 0. -/
theorem c8_witness :
    ((["M"] : List String).countP fun subj => asgW.dec "C" subj 0) ≤ 1 :=
  (c8_class_exclusive inputW 1 asgW (by decide) (by decide)
    ⟨"C", ["M"]⟩ (by decide)).1 0 (by decide)

/-- A map of the all-zero function sums to zero. -/
lemma sum_map_zerof (bs : List β) : (bs.map fun _ => (0 : Nat)).sum = 0 := by
  induction bs with
  | nil => rfl
  | cons b rest ih =>
    simp only [List.map_cons, List.sum_cons, ih]

/-- Sums of pointwise sums split. -/
lemma sum_map_addf (bs : List β) (g h : β → Nat) :
    (bs.map fun b => g b + h b).sum = (bs.map g).sum + (bs.map h).sum := by
  induction bs with
  | nil => rfl
  | cons b rest ih =>
    simp only [List.map_cons, List.sum_cons, ih]
    omega

/-- Counting as a sum of indicators. -/
lemma countP_eq_sum_ind (l : List α) (p : α → Bool) :
    l.countP p = (l.map fun x => if p x then 1 else 0).sum := by
  induction l with
  | nil => rfl
  | cons x rest ih =>
    rw [List.countP_cons]
    simp only [List.map_cons, List.sum_cons, ih]
    omega

/-- Exchanging the two summations of a 0/1 matrix. -/
lemma sum_countP_comm (as : List α) (bs : List β) (p : α → β → Bool) :
    (as.map fun x => bs.countP (p x)).sum
      = (bs.map fun y => as.countP fun x => p x y).sum := by
  induction as with
  | nil =>
    simp only [List.map_nil, List.sum_nil, List.countP_nil]
    exact (sum_map_zerof bs).symm
  | cons x rest ih =>
    simp only [List.map_cons, List.sum_cons, ih]
    rw [countP_eq_sum_ind bs (p x), ← sum_map_addf]
    have hfun : (fun y => (if p x y then 1 else 0) + rest.countP fun x' => p x' y)
        = fun y => (x :: rest).countP fun x' => p x' y := by
      funext y
      rw [List.countP_cons]
      omega
    rw [hfun]

/-- A sum of 0/1 values counts its positive entries. -/
lemma sum_map_of_le_one (l : List α) (f : α → Nat) (h : ∀ x ∈ l, f x ≤ 1) :
    (l.map f).sum = l.countP fun x => decide (0 < f x) := by
  induction l with
  | nil => rfl
  | cons x rest ih =>
    simp only [List.map_cons, List.sum_cons, List.countP_cons]
    rw [ih (fun y hy => h y (List.mem_cons_of_mem x hy))]
    have hx := h x (List.mem_cons_self x rest)
    rcases Nat.le_one_iff_eq_zero_or_eq_one.mp hx with h0 | h1
    · rw [h0]
      simp
    · rw [h1]
      simp [Nat.add_comm]

/-- Complementary counts add up to the length. -/
lemma countP_true_add_false (l : List α) (p : α → Bool) :
    l.countP p + l.countP (fun x => !(p x)) = l.length := by
  induction l with
  | nil => rfl
  | cons x rest ih =>
    simp only [List.countP_cons, List.length_cons]
    cases hp : p x <;> simp <;> omega

/-- The filtered row is empty iff the count is zero. -/
lemma filter_isEmpty_eq (l : List α) (p : α → Bool) :
    (l.filter p).isEmpty = !(decide (0 < l.countP p)) := by
  rw [List.countP_eq_length_filter]
  cases hfe : l.filter p with
  | nil => rfl
  | cons y ys => simp

/-- Claim C9: in every success result the free-period count of a class is the
number of empty slot entries of its timetable row, and under the posted
constraints this equals SLOTS minus the sum of the declared period counts of
the class's subjects. -/
theorem c9_free_periods (input : Input) (ppd : Nat) (a : Assignment)
    (hv : validate input ppd = none)
    (h : constraintsHold input ppd a = true) :
    dlookup (solve_timetable input (some a) ppd) "free_periods"
      = some (JVal.nmap (pyDictOf (input.classes.map fun c =>
          (c.name, (classRow ppd a c).countP List.isEmpty)))) ∧
    ∀ c ∈ input.classes,
      (classRow ppd a c).countP List.isEmpty
        = 5 * ppd - (c.subjects.map fun subj =>
            (dlookup (subjectsDict input) subj).getD 0).sum := by
  constructor
  · unfold solve_timetable
    rw [hv]
    rfl
  · intro c hc
    have hper := periodCount_spec h c hc
    have hexc := classExcl_spec h c hc
    unfold classRow
    rw [List.countP_map]
    have hrw : (List.isEmpty ∘ fun s => c.subjects.filter fun subj => a.dec c.name subj s)
        = fun s => !(decide (0 < c.subjects.countP fun subj => a.dec c.name subj s)) := by
      funext s
      exact filter_isEmpty_eq _ _
    rw [hrw]
    have hA : ((List.range (5 * ppd)).countP fun s =>
          decide (0 < c.subjects.countP fun subj => a.dec c.name subj s))
        + ((List.range (5 * ppd)).countP fun s =>
          !(decide (0 < c.subjects.countP fun subj => a.dec c.name subj s)))
        = 5 * ppd := by
      have hcf := countP_true_add_false (List.range (5 * ppd))
        (fun s => decide (0 < c.subjects.countP fun subj => a.dec c.name subj s))
      rw [List.length_range] at hcf
      exact hcf
    have hB : ((List.range (5 * ppd)).map fun s =>
          c.subjects.countP fun subj => a.dec c.name subj s).sum
        = (List.range (5 * ppd)).countP fun s =>
          decide (0 < c.subjects.countP fun subj => a.dec c.name subj s) :=
      sum_map_of_le_one _ _ hexc
    have hC : ((List.range (5 * ppd)).map fun s =>
          c.subjects.countP fun subj => a.dec c.name subj s).sum
        = (c.subjects.map fun subj =>
          (List.range (5 * ppd)).countP fun s => a.dec c.name subj s).sum :=
      sum_countP_comm (List.range (5 * ppd)) c.subjects
        (fun s subj => a.dec c.name subj s)
    have hD : (c.subjects.map fun subj =>
          (List.range (5 * ppd)).countP fun s => a.dec c.name subj s)
        = c.subjects.map fun subj => (dlookup (subjectsDict input) subj).getD 0 :=
      List.map_congr_left hper
    rw [hD] at hC
    omega

/-- Scenario A: one class with Math (5 periods) and English (4 periods),
distinct teachers, `periods_per_day = 8` so `SLOTS = 40`. -/
def inputA : Input :=
  { classes := [⟨"A", ["Math", "English"]⟩],
    subjects := [⟨"Math", 5⟩, ⟨"English", 4⟩],
    teachers := [⟨"Smith", "Math"⟩, ⟨"Jones", "English"⟩] }

/-- Math in slots 0–4, English in slots 5–8, all penalty variables false. -/
def asgA : Assignment :=
  { dec := fun cn subj s =>
      cn == "A" &&
        ((subj == "Math" && decide (s < 5)) ||
         (subj == "English" && (decide (5 ≤ s) && decide (s < 9)))),
    consecPen := fun _ _ _ => false,
    repeatPen := fun _ _ _ => false }

/-- Witness for `c9_free_periods` on Scenario A: 40 − (5 + 4) = 31 free
slots. -/
theorem c9_witness :
    (classRow 8 asgA ⟨"A", ["Math", "English"]⟩).countP List.isEmpty = 31 := by
  have h := (c9_free_periods inputA 8 asgA (by decide) (by decide)).2
    ⟨"A", ["Math", "English"]⟩ (by decide)
  rw [h]
  decide

end Chronos
